import Mathlib

/-!
# Verification of the react-svg-timeline viewport and mark-layering engine

Shallow embedding of `src/Timeline.tsx` and `src/Marks.tsx`.

Conventions of the embedding:
* JavaScript `number` values that can only ever hold finite values in the
  modelled code paths (event timestamps, pixel coordinates) are embedded as `ℚ`.
* Where the code can produce `NaN` or `±Infinity` (the domain endpoints coming
  out of `calcMaxDomain`, and the `domain` state fed to the visibility filter),
  numbers are embedded as `JSNum`, which carries those special values and gives
  IEEE-754 comparison semantics (every comparison involving `NaN` is false).
* JavaScript truthiness tests on numbers (`x && …`, `x ? … : …`, `x || y`)
  are embedded explicitly: `0` and `NaN` are falsy, everything else truthy.
* `Array.prototype.sort(cmp)` (ECMA-262 requires a stable sort; for a
  consistent comparator the result is ordered by `cmp`) is embedded as the
  stable `List.insertionSort` over the relation `fun a b => cmp a b ≤ 0`.
-/

/-- A JavaScript `number` that may be `NaN` or infinite.  Finite values are
rationals. -/
inductive JSNum where
  | nan
  | posInf
  | negInf
  | num (q : ℚ)
deriving DecidableEq, Repr

namespace JSNum

/-- JS `a <= b`: false whenever either side is `NaN`. -/
def le : JSNum → JSNum → Bool
  | nan, _ => false
  | _, nan => false
  | negInf, _ => true
  | _, posInf => true
  | posInf, _ => false
  | num _, negInf => false
  | num a, num b => a ≤ b

/-- JS `a < b`: false whenever either side is `NaN`. -/
def lt : JSNum → JSNum → Bool
  | nan, _ => false
  | _, nan => false
  | _, negInf => false
  | negInf, _ => true
  | posInf, _ => false
  | _, posInf => true
  | num a, num b => a < b

/-- JS truthiness of a number: `0` and `NaN` are falsy. -/
def truthy : JSNum → Bool
  | nan => false
  | num q => q ≠ 0
  | _ => true

/-- JS `Math.min(a, b)`: `NaN` absorbs. -/
def min2 : JSNum → JSNum → JSNum
  | nan, _ => nan
  | _, nan => nan
  | a, b => if lt a b then a else b

/-- JS `Math.max(a, b)`: `NaN` absorbs. -/
def max2 : JSNum → JSNum → JSNum
  | nan, _ => nan
  | _, nan => nan
  | a, b => if lt a b then b else a

/-- JS `Math.min(...xs)`: `Infinity` when the list is empty. -/
def minList (xs : List JSNum) : JSNum := xs.foldl min2 posInf

/-- JS `Math.max(...xs)`: `-Infinity` when the list is empty. -/
def maxList (xs : List JSNum) : JSNum := xs.foldl max2 negInf

/-- JS `x || NaN`: `x` when truthy, `NaN` otherwise. -/
def orNaN (x : JSNum) : JSNum := if truthy x then x else nan

end JSNum

/-- `TimelineEvent` (src/model.ts, as used by `Timeline.tsx` / `Marks.tsx`).
Only the fields the modelled functions read are carried; `eventId`,
`startTimeMillis`, the optional `endTimeMillis` (presence distinguishes a
period event from an instant event) and `isSelected`.  Fields never read by
the modelled code (`color`, `isPinned`, `tooltip` text, lane id) are omitted.
Event timestamps are finite in all modelled code paths, hence `ℚ`. -/
structure TimelineEvent where
  eventId : ℕ
  startTimeMillis : ℚ
  endTimeMillis : Option ℚ
  isSelected : Bool
deriving DecidableEq, Repr

/-- A timeline domain as produced by `calcMaxDomain` / held in component
state: a pair of JS numbers (possibly `NaN` or infinite). -/
def Domain := JSNum × JSNum
deriving DecidableEq, Repr

/-- `calcMaxDomain` (Timeline.tsx:41-45):
```
const timeMin = Math.min(...events.map((e) => e.startTimeMillis))
const timeMax = Math.max(...events.map((e) =>
  (e.endTimeMillis === undefined ? e.startTimeMillis : e.endTimeMillis)))
return [timeMin || NaN, timeMax || NaN]
``` -/
def calcMaxDomain (events : List TimelineEvent) : Domain :=
  let timeMin := JSNum.minList (events.map fun e => JSNum.num e.startTimeMillis)
  let timeMax := JSNum.maxList (events.map fun e =>
    match e.endTimeMillis with
    | none => JSNum.num e.startTimeMillis
    | some t => JSNum.num t)
  (timeMin.orNaN, timeMax.orNaN)

/-- The filter predicate of `eventsInsideDomain` (Timeline.tsx:111-116):
```
const isStartInView = e.startTimeMillis >= domain[0] && e.startTimeMillis <= domain[1]
const isEndInView = e.endTimeMillis && e.endTimeMillis >= domain[0] && e.endTimeMillis <= domain[1]
const isSpanningAcrossView = e.endTimeMillis && e.startTimeMillis < domain[0] && e.endTimeMillis > domain[1]
return isStartInView || isEndInView || isSpanningAcrossView
```
`e.endTimeMillis && …` is a JS truthiness test: it fails when `endTimeMillis`
is absent or equal to `0`. -/
def insideDomainPred (domain : Domain) (e : TimelineEvent) : Bool :=
  let s := JSNum.num e.startTimeMillis
  let isStartInView := JSNum.le domain.1 s && JSNum.le s domain.2
  let isEndInView :=
    match e.endTimeMillis with
    | none => false
    | some t => decide (t ≠ 0) && JSNum.le domain.1 (JSNum.num t) && JSNum.le (JSNum.num t) domain.2
  let isSpanningAcrossView :=
    match e.endTimeMillis with
    | none => false
    | some t => decide (t ≠ 0) && JSNum.lt s domain.1 && JSNum.lt domain.2 (JSNum.num t)
  isStartInView || isEndInView || isSpanningAcrossView

/-- `eventsInsideDomain` (Timeline.tsx:111-116): the events kept for rendering
under the current domain. -/
def eventsInsideDomain (events : List TimelineEvent) (domain : Domain) : List TimelineEvent :=
  events.filter (insideDomainPred domain)

/-- The visibility predicate exactly as claim C2 / spec §4.4 state it
(written from the spec's words, for comparison with `eventsInsideDomain`):
an instant event with start in `[d0,d1]`; a period event with end in
`[d0,d1]`; or a period event with `start < d0` and `end > d1`. -/
def specClaimVisible (domain : Domain) (e : TimelineEvent) : Bool :=
  let s := JSNum.num e.startTimeMillis
  match e.endTimeMillis with
  | none => JSNum.le domain.1 s && JSNum.le s domain.2
  | some t =>
      (JSNum.le domain.1 (JSNum.num t) && JSNum.le (JSNum.num t) domain.2)
      || (JSNum.lt s domain.1 && JSNum.lt domain.2 (JSNum.num t))

/-- The amended visibility condition for C2, as a proposition: the event's
start is inside `[d0,d1]` (for any event kind), or the event has a truthy
(present and nonzero) end time inside `[d0,d1]`, or it has a truthy end time
and spans across the domain (`start < d0` and `end > d1`). -/
def amendedVisible (domain : Domain) (e : TimelineEvent) : Prop :=
  (JSNum.le domain.1 (JSNum.num e.startTimeMillis)
      && JSNum.le (JSNum.num e.startTimeMillis) domain.2) = true
  ∨ (∃ t, e.endTimeMillis = some t ∧ t ≠ 0
      ∧ (JSNum.le domain.1 (JSNum.num t) && JSNum.le (JSNum.num t) domain.2) = true)
  ∨ (∃ t, e.endTimeMillis = some t ∧ t ≠ 0
      ∧ (JSNum.lt (JSNum.num e.startTimeMillis) domain.1
          && JSNum.lt domain.2 (JSNum.num t)) = true)

/-! ## Marks.tsx: the three-pass mark layering engine -/

/-- `sortByEventDuration` (Marks.tsx:59-61):
```
const sortByEventDuration = (e) => -(e.endTimeMillis ? e.endTimeMillis - e.startTimeMillis : 0)
```
Note this is a function of ONE event.  `e.endTimeMillis ? … : 0` is a JS
truthiness test (absent or zero end time gives `0`). -/
def sortByEventDuration (e : TimelineEvent) : ℚ :=
  -(match e.endTimeMillis with
    | some t => if t ≠ 0 then t - e.startTimeMillis else 0
    | none => 0)

/-- `xs.sort(cmp)` for a JS comparator `cmp` returning a number: modelled as a
stable sort placing `a` no later than `b` whenever `cmp a b ≤ 0`
(ECMA-262 requires `Array.prototype.sort` to be stable, and for a consistent
comparator the result is ordered by it).  `Marks.tsx` passes the unary
`sortByEventDuration` as the comparator, so the comparator's value on a pair
`(a, b)` is `sortByEventDuration a`, ignoring `b`. -/
def jsSort (cmp : TimelineEvent → TimelineEvent → ℚ) (xs : List TimelineEvent) :
    List TimelineEvent :=
  xs.insertionSort fun a b => cmp a b ≤ 0

/-- The event sequence of the foreground pass (Marks.tsx:100-111):
`events.filter(_ => true).sort(sortByEventDuration)`. -/
def foregroundEvents (events : List TimelineEvent) : List TimelineEvent :=
  jsSort (fun a _ => sortByEventDuration a) (events.filter fun _ => true)

/-- The event sequence of the selection pass (Marks.tsx:113-124):
`events.filter(e => e.isSelected).sort(sortByEventDuration)`. -/
def selectionEvents (events : List TimelineEvent) : List TimelineEvent :=
  jsSort (fun a _ => sortByEventDuration a) (events.filter fun e => e.isSelected)

/-- Which pass a rendered mark belongs to. -/
inductive Pass where
  | background
  | foreground
  | selection
deriving DecidableEq, Repr

/-- The full draw sequence of `Marks` (Marks.tsx:126-132): the background
marks (original event order, Marks.tsx:90-98), then the foreground marks,
then the selection marks, in that order inside the returned `<g>`. -/
def marks (events : List TimelineEvent) : List (Pass × TimelineEvent) :=
  (events.map fun e => (Pass.background, e))
    ++ ((foregroundEvents events).map fun e => (Pass.foreground, e))
    ++ ((selectionEvents events).map fun e => (Pass.selection, e))

/-- The effective duration of an event in the sense of claim C1 / spec §4.5:
`endTimeMillis - startTimeMillis`, or `0` for an instant event. -/
def effectiveDuration (e : TimelineEvent) : ℚ :=
  match e.endTimeMillis with
  | some t => t - e.startTimeMillis
  | none => 0

/-! ## Timeline.tsx: viewport state, guards, pan/zoom, animation -/

/-- The `Animation` state type (Timeline.tsx:33-39): `'none'` or
`{startMs, fromDomain, toDomain}`.  Once an animation is running the domains
involved are finite, hence `ℚ` pairs. -/
inductive Animation where
  | na
  | active (startMs : ℚ) (fromDomain toDomain : ℚ × ℚ)
deriving DecidableEq, Repr

/-- The mutable component state of `Timeline` relevant to the viewport
operations: `domain` (useState, Timeline.tsx:72), `animation` (useState,
line 73) and `isMouseOverEvent` (useState, line 74). -/
structure ViewState where
  domain : ℚ × ℚ
  animation : Animation
  isMouseOverEvent : Bool
deriving DecidableEq, Repr

/-- `isAnimationInProgress` (Timeline.tsx:127): `animation !== 'none'`. -/
def isAnimationInProgress (s : ViewState) : Bool :=
  s.animation ≠ Animation.na

/-- `isDomainChangePossible` (Timeline.tsx:128):
`!isAnimationInProgress && !isMouseOverEvent`. -/
def isDomainChangePossible (s : ViewState) : Bool :=
  !isAnimationInProgress s && !s.isMouseOverEvent

/-- `timeScalePadding` (Timeline.tsx:135). -/
def timeScalePadding : ℚ := 50

/-- The inverse of the d3 linear `timeScale` (Timeline.tsx:136-138), which
maps `domain` onto the pixel range `[50, width - 50]`; `invert` of a linear
scale is the corresponding linear map from pixels back to times. -/
def timeScaleInvert (domain : ℚ × ℚ) (width x : ℚ) : ℚ :=
  domain.1 + (x - timeScalePadding) * (domain.2 - domain.1)
    / ((width - timeScalePadding) - timeScalePadding)

/-- `setDomainAnimated` (Timeline.tsx:147-148): starts a new animation from
the currently rendered domain, superseding any in-flight one. -/
def setDomainAnimated (now : ℚ) (newDomain : ℚ × ℚ) (s : ViewState) : ViewState :=
  { s with animation := Animation.active now s.domain newDomain }

/-- `getDomainSpan` (Timeline.tsx:142-145). -/
def getDomainSpan (maxDomain : ℚ × ℚ) (time width : ℚ) : ℚ × ℚ :=
  (max maxDomain.1 (time - width / 2), min maxDomain.2 (time + width / 2))

/-- `updateDomain` (Timeline.tsx:150-155), the shared body of `onZoomIn` and
`onZoomOut` (lines 163-164).  The zoom-scale width `zoomScaleWidth(zoomScale)`
comes from the `ZoomScale` module, which is outside the modelled sources; it
is taken here as the parameter `newZoomWidth`. -/
def updateDomain (maxDomain : ℚ × ℚ) (now timeAtCursor newZoomWidth : ℚ)
    (s : ViewState) : ViewState :=
  if isDomainChangePossible s then
    setDomainAnimated now (getDomainSpan maxDomain timeAtCursor newZoomWidth) s
  else s

/-- `onZoomInCustom` (Timeline.tsx:166-172). -/
def onZoomInCustom (width now mouseStartX mouseEndX : ℚ) (s : ViewState) : ViewState :=
  if isDomainChangePossible s then
    setDomainAnimated now
      (timeScaleInvert s.domain width mouseStartX, timeScaleInvert s.domain width mouseEndX) s
  else s

/-- `onZoomReset` (Timeline.tsx:182-186). -/
def onZoomReset (maxDomain : ℚ × ℚ) (now : ℚ) (s : ViewState) : ViewState :=
  if isDomainChangePossible s then setDomainAnimated now maxDomain s else s

/-- `onPan` (Timeline.tsx:188-198):
```
if (isDomainChangePossible) {
  const [domainMin, domainMax] = domain
  const [rangeMin, rangeMax] = timeScale.range()
  const domainDelta = (pixelDelta / (rangeMax - rangeMin)) * (domainMax - domainMin)
  const [newDomainMin, newDomainMax] = [domainMin + domainDelta, domainMax + domainDelta]
  if (newDomainMin > maxDomainStart && newDomainMax < maxDomainEnd) {
    setDomain([newDomainMin, newDomainMax])
  }
}
```
`timeScale.range()` is `[50, width - 50]` (Timeline.tsx:138). -/
def onPan (maxDomain : ℚ × ℚ) (width pixelDelta : ℚ) (s : ViewState) : ViewState :=
  if isDomainChangePossible s then
    let domainMin := s.domain.1
    let domainMax := s.domain.2
    let rangeMin := timeScalePadding
    let rangeMax := width - timeScalePadding
    let domainDelta := (pixelDelta / (rangeMax - rangeMin)) * (domainMax - domainMin)
    let newDomainMin := domainMin + domainDelta
    let newDomainMax := domainMax + domainDelta
    if maxDomain.1 < newDomainMin ∧ newDomainMax < maxDomain.2 then
      { s with domain := (newDomainMin, newDomainMax) }
    else s
  else s

/-- `animationDuration` (Timeline.tsx:47). -/
def animationDuration : ℚ := 1000

/-- What a scheduled `requestAnimationFrame` callback of the animation effect
captures (Timeline.tsx:98-103): the already-computed `animatedDomain` and the
`animation.toDomain` of the animation it was computed for. -/
structure Frame where
  animatedDomain : ℚ × ℚ
  toDomain : ℚ × ℚ
deriving DecidableEq, Repr

/-- One run of the animation effect (Timeline.tsx:89-109) at wall-clock `now`:
when an animation is active and `elapsed < animationDuration` it computes the
interpolated domain and schedules a frame callback (returned as `some frame`);
when `elapsed ≥ animationDuration` it immediately sets the domain to
`toDomain` and resets the animation to `'none'`. -/
def animationEffectStep (s : ViewState) (now : ℚ) : ViewState × Option Frame :=
  match s.animation with
  | Animation.na => (s, none)
  | Animation.active startMs fromDomain toDomain =>
    let elapsed := now - startMs
    if elapsed < animationDuration then
      let t := elapsed / animationDuration
      let deltaStart := t * (toDomain.1 - fromDomain.1)
      let deltaEnd := t * (toDomain.2 - fromDomain.2)
      let animatedDomain := (fromDomain.1 + deltaStart, fromDomain.2 + deltaEnd)
      (s, some ⟨animatedDomain, toDomain⟩)
    else
      ({ s with domain := toDomain, animation := Animation.na }, none)

/-- Running a scheduled frame callback (Timeline.tsx:98-103) against the
state current at the time it fires:
```
requestAnimationFrame(() => {
  setDomain(animatedDomain)
  if (animatedDomain[0] === animation.toDomain[0] && animatedDomain[1] === animation.toDomain[1]) {
    setAnimation('none')
  }
})
```
The callback applies `setDomain` unconditionally; the effect installs no
cleanup and never cancels the scheduled callback. -/
def fireFrame (s : ViewState) (f : Frame) : ViewState :=
  let s1 := { s with domain := f.animatedDomain }
  if f.animatedDomain = f.toDomain then { s1 with animation := Animation.na } else s1

/-- The interpolated domain of claim C7:
`fromDomain + (elapsed/1000) * (toDomain - fromDomain)`, per endpoint. -/
def interpolatedDomain (fromDomain toDomain : ℚ × ℚ) (elapsed : ℚ) : ℚ × ℚ :=
  (fromDomain.1 + elapsed / 1000 * (toDomain.1 - fromDomain.1),
   fromDomain.2 + elapsed / 1000 * (toDomain.2 - fromDomain.2))

/-! ## Marks.tsx: tooltip positioning -/

/-- The tooltip kind (Marks.tsx:162, 243):
`event.endTimeMillis ? 'period' : { singleEventX: startX }` — again a JS
truthiness test on `endTimeMillis`. -/
inductive TooltipType where
  | period
  | point (singleEventX : ℚ)
deriving DecidableEq, Repr

/-- The tooltip type chosen for an event whose mark starts at screen
coordinate `startX` (Marks.tsx:160-162). -/
def tooltipTypeOf (e : TimelineEvent) (startX : ℚ) : TooltipType :=
  match e.endTimeMillis with
  | some t => if t ≠ 0 then TooltipType.period else TooltipType.point startX
  | none => TooltipType.point startX

/-- The tooltip box width (Marks.tsx:252):
`const width = type === 'period' ? 180 : 100`. -/
def tooltipWidth : TooltipType → ℚ
  | TooltipType.period => 180
  | TooltipType.point _ => 100

/-- The tooltip's local horizontal anchor (Marks.tsx:261):
`const tooltipX = type === 'period' ? 0 : type.singleEventX - xOffset`,
where `xOffset` is the per-frame tracking offset supplied by the hosting
tooltip-follow mechanism. -/
def tooltipX (type : TooltipType) (xOffset : ℚ) : ℚ :=
  match type with
  | TooltipType.period => 0
  | TooltipType.point singleEventX => singleEventX - xOffset

/-- Modelled from the spec: the hosting tooltip-follow mechanism
(`react-svg-tooltip`, outside this repository) renders the tooltip content in
a frame that follows the pointer and supplies the per-frame tracking offset
`xOffset` so children can counteract that movement (Marks.tsx:256-260: the
offsets "can be used to counteract this behavior").  The absolute screen x of
tooltip content placed at local coordinate `tooltipX` is therefore
`xOffset + tooltipX`: subtracting `xOffset` from a local coordinate makes the
absolute position pointer-independent. -/
def absoluteTooltipX (type : TooltipType) (xOffset : ℚ) : ℚ :=
  xOffset + tooltipX type xOffset

/-! ## Theorems -/

/-- C4: the claim states that for every non-empty event list `calcMaxDomain`
returns `(min start, max (end ?? start))` — in particular `(t, t)` for the
single instant event `{start: t}`, for every `t` — and `(NaN, NaN)` for the
empty list.  The code disagrees on both degenerate points: `Math.min()` of an
empty spread is `Infinity`, which is truthy, so `timeMin || NaN` yields
`Infinity` (and `timeMax || NaN` yields `-Infinity`); and for a single
instant event at `t = 0` the falsy `0` makes `|| NaN` fire, yielding
`(NaN, NaN)` instead of `(0, 0)`.  The non-degenerate case behaves as
claimed (third conjunct). -/
theorem c4_calcMaxDomain_degenerate_eval :
    calcMaxDomain [] = (JSNum.posInf, JSNum.negInf)
    ∧ calcMaxDomain [⟨0, 0, none, false⟩] = (JSNum.nan, JSNum.nan)
    ∧ calcMaxDomain [⟨0, 1000, none, false⟩, ⟨1, 500, some 1500, false⟩]
        = (JSNum.num 500, JSNum.num 1500) := by
  refine ⟨by decide, by decide, by decide⟩

/-- C10: whenever either endpoint of the current domain is `NaN`,
`eventsInsideDomain` returns the empty list — every comparison against `NaN`
is false, so none of the three visibility conditions can hold for any
event. -/
theorem c10_nan_domain_filters_all (events : List TimelineEvent) (d0 d1 : JSNum)
    (h : d0 = JSNum.nan ∨ d1 = JSNum.nan) :
    eventsInsideDomain events (d0, d1) = [] := by
  rw [eventsInsideDomain, List.filter_eq_nil_iff]
  intro e _
  rcases h with rfl | rfl <;>
    rcases he : e.endTimeMillis with _ | t <;>
      simp [insideDomainPred, JSNum.le, JSNum.lt, he]

/-- Witness for C10 at a concrete input: a period event that would be visible
in an ordinary domain is filtered out once the domain start is `NaN`. -/
theorem c10_nan_domain_witness :
    eventsInsideDomain [⟨0, 5, some 100, false⟩] (JSNum.nan, JSNum.num 10) = [] :=
  c10_nan_domain_filters_all [⟨0, 5, some 100, false⟩] JSNum.nan (JSNum.num 10) (Or.inl rfl)

/-- C2, counterexample: the period event `{start: 5, end: 100}` under the
domain `[0, 10]` is kept by `eventsInsideDomain` (its start is in view), yet
none of the claim's three conditions holds for it (it is not an instant
event, its end `100 ∉ [0,10]`, and it does not span across since
`5 ≥ 0`), so the claimed "if and only if" is false: the claim says this
event is not visible, the code shows it. -/
theorem c2_start_in_view_counterexample :
    eventsInsideDomain [⟨0, 5, some 100, false⟩] (JSNum.num 0, JSNum.num 10)
      = [⟨0, 5, some 100, false⟩]
    ∧ specClaimVisible (JSNum.num 0, JSNum.num 10) ⟨0, 5, some 100, false⟩ = false := by
  refine ⟨by decide, by decide⟩

/-- The filter predicate of the code agrees with the amended three-way
disjunction of C2 (start-in-view for any event kind, truthy end-in-view,
truthy end spanning across). -/
theorem insideDomainPred_iff (domain : Domain) (e : TimelineEvent) :
    insideDomainPred domain e = true ↔ amendedVisible domain e := by
  unfold insideDomainPred amendedVisible
  rcases he : e.endTimeMillis with _ | t <;> simp [he, and_assoc, or_assoc]

/-- C2, amended: an event is in the visible set iff its start is in
`[d0, d1]` (for any event, instant or period), or it has a truthy (present
and nonzero) end time lying in `[d0, d1]`, or it has a truthy end time with
start `< d0` and end `> d1`.  In particular a period event whose start lies
inside the domain is visible even when its end lies outside. -/
theorem c2_visibility_amended (e : TimelineEvent) (events : List TimelineEvent)
    (domain : Domain) :
    e ∈ eventsInsideDomain events domain ↔ e ∈ events ∧ amendedVisible domain e := by
  rw [eventsInsideDomain, List.mem_filter, insideDomainPred_iff]

/-- C1: evaluation of the foreground pass at the failing input.
`sortByEventDuration` takes a single event, so used as a sort comparator it
ignores its second argument; it is not a consistent comparator and the
resulting order is not the descending-duration order the claim (and the
code's own doc comment, Marks.tsx:48-49) requires.  Under the stable-sort
semantics of `jsSort`, the pair (3ms period, 10ms period) keeps its original
order — the strictly shorter event is emitted before the longer one — and an
instant event listed before a period event also stays before it. -/
theorem c1_foreground_pass_not_duration_sorted :
    effectiveDuration ⟨0, 0, some 3, false⟩ < effectiveDuration ⟨1, 0, some 10, false⟩
    ∧ foregroundEvents [⟨0, 0, some 3, false⟩, ⟨1, 0, some 10, false⟩]
        = [⟨0, 0, some 3, false⟩, ⟨1, 0, some 10, false⟩]
    ∧ foregroundEvents [⟨2, 7, none, false⟩, ⟨1, 0, some 10, false⟩]
        = [⟨2, 7, none, false⟩, ⟨1, 0, some 10, false⟩] := by
  refine ⟨by norm_num [effectiveDuration], ?_, ?_⟩ <;>
    simp [foregroundEvents, jsSort, List.insertionSort, List.orderedInsert, sortByEventDuration]

/-- In a concatenation whose left part contains no selection-pass entries and
whose right part contains only selection-pass entries, every selection-pass
index is strictly greater than every non-selection index. -/
theorem sel_append_order (A S : List (Pass × TimelineEvent))
    (hA : ∀ x ∈ A, x.1 ≠ Pass.selection) (hS : ∀ x ∈ S, x.1 = Pass.selection) :
    ∀ (i j : ℕ) (hi : i < (A ++ S).length) (hj : j < (A ++ S).length),
      ((A ++ S).get ⟨i, hi⟩).1 = Pass.selection →
      ((A ++ S).get ⟨j, hj⟩).1 ≠ Pass.selection → j < i := by
  intro i j hi hj hisel hjnot
  have hiA : ¬ i < A.length := by
    intro hlt
    have hmem : (A ++ S).get ⟨i, hi⟩ ∈ A := by
      rw [List.get_eq_getElem, List.getElem_append_left hlt]
      exact List.getElem_mem _
    exact hA _ hmem hisel
  have hjA : j < A.length := by
    by_contra hge
    push_neg at hge
    have hmem : (A ++ S).get ⟨j, hj⟩ ∈ S := by
      rw [List.get_eq_getElem, List.getElem_append_right hge]
      exact List.getElem_mem _
    exact hjnot (hS _ hmem)
  omega

/-- C5: the selection pass renders exactly the events whose `isSelected` is
true, and in the full draw sequence every selection-pass visual comes after
every background-pass and foreground-pass visual, so a selected mark's
selection visual is drawn on top of all other passes. -/
theorem c5_selection_pass_membership_and_on_top (events : List TimelineEvent) :
    (∀ e : TimelineEvent, (Pass.selection, e) ∈ marks events ↔ e ∈ events ∧ e.isSelected = true)
    ∧ ∀ (i j : ℕ) (hi : i < (marks events).length) (hj : j < (marks events).length),
        ((marks events).get ⟨i, hi⟩).1 = Pass.selection →
        ((marks events).get ⟨j, hj⟩).1 ≠ Pass.selection → j < i := by
  constructor
  · intro e
    simp [marks, List.mem_map, selectionEvents, jsSort, List.mem_insertionSort, List.mem_filter]
  · have hA : ∀ x ∈ (events.map fun e => (Pass.background, e))
        ++ ((foregroundEvents events).map fun e => (Pass.foreground, e)),
        x.1 ≠ Pass.selection := by
      intro x hx
      rcases List.mem_append.mp hx with hx | hx <;>
        rcases List.mem_map.mp hx with ⟨a, _, rfl⟩ <;> simp
    have hS : ∀ x ∈ (selectionEvents events).map fun e => (Pass.selection, e),
        x.1 = Pass.selection := by
      intro x hx
      rcases List.mem_map.mp hx with ⟨a, _, rfl⟩
      rfl
    intro i j hi hj hisel hjnot
    exact sel_append_order _ _ hA hS i j hi hj hisel hjnot

/-- Witness for C5 at a concrete input: for the single selected event, its
selection-pass visual is in the draw sequence, and the theorem's ordering
part applies at indices 2 (the selection visual) and 0 (the background
visual), giving `0 < 2`. -/
theorem c5_selection_pass_witness :
    (Pass.selection, (⟨0, 1, none, true⟩ : TimelineEvent)) ∈ marks [⟨0, 1, none, true⟩]
    ∧ (0 : ℕ) < 2 := by
  have hm : marks [(⟨0, 1, none, true⟩ : TimelineEvent)]
      = [(Pass.background, ⟨0, 1, none, true⟩), (Pass.foreground, ⟨0, 1, none, true⟩),
         (Pass.selection, ⟨0, 1, none, true⟩)] := by
    simp [marks, foregroundEvents, selectionEvents, jsSort, List.insertionSort,
      List.orderedInsert]
  have hlen : (marks [(⟨0, 1, none, true⟩ : TimelineEvent)]).length = 3 := by rw [hm]; rfl
  constructor
  · exact ((c5_selection_pass_membership_and_on_top [⟨0, 1, none, true⟩]).1
      ⟨0, 1, none, true⟩).mpr (by simp)
  · refine (c5_selection_pass_membership_and_on_top [⟨0, 1, none, true⟩]).2 2 0
      (by omega) (by omega) ?_ ?_
    · simp [hm]
    · simp [hm]

/-- C6: for every state and `pixelDelta`, after `onPan` the animation state is
untouched (no animation is started; when applied the domain changes
instantaneously), and either the new domain is both endpoints translated by
`pixelDelta * domainWidth / pixelRangeWidth` and lies strictly inside
`maxDomain`, or the domain is unchanged (out-of-range pans are rejected, not
clamped). -/
theorem c6_pan_containment (s : ViewState) (maxDomain : ℚ × ℚ) (width pixelDelta : ℚ) :
    (onPan maxDomain width pixelDelta s).animation = s.animation
    ∧ (((onPan maxDomain width pixelDelta s).domain =
          (s.domain.1 + pixelDelta * (s.domain.2 - s.domain.1)
              / ((width - timeScalePadding) - timeScalePadding),
           s.domain.2 + pixelDelta * (s.domain.2 - s.domain.1)
              / ((width - timeScalePadding) - timeScalePadding))
        ∧ maxDomain.1 < (onPan maxDomain width pixelDelta s).domain.1
        ∧ (onPan maxDomain width pixelDelta s).domain.2 < maxDomain.2)
      ∨ (onPan maxDomain width pixelDelta s).domain = s.domain) := by
  unfold onPan
  split
  · dsimp only
    split
    case isTrue h =>
      refine ⟨rfl, Or.inl ⟨?_, ?_, ?_⟩⟩
      · simp [div_mul_eq_mul_div]
      · exact h.1
      · exact h.2
    case isFalse h => exact ⟨rfl, Or.inr rfl⟩
  · exact ⟨rfl, Or.inr rfl⟩

/-- C7: while `elapsed < 1000` the animation effect computes and schedules
exactly the per-endpoint linear interpolation
`fromDomain + (elapsed/1000) * (toDomain - fromDomain)` (and the fired frame
sets the rendered domain to it); once `elapsed ≥ 1000` the effect sets the
domain exactly to `toDomain` and resets the animation state to none. -/
theorem c7_tween_linear_interpolation (s : ViewState) (now startMs : ℚ)
    (fromDomain toDomain : ℚ × ℚ)
    (h : s.animation = Animation.active startMs fromDomain toDomain) :
    (now - startMs < animationDuration →
      animationEffectStep s now
        = (s, some ⟨interpolatedDomain fromDomain toDomain (now - startMs), toDomain⟩)
      ∧ (fireFrame s ⟨interpolatedDomain fromDomain toDomain (now - startMs), toDomain⟩).domain
          = interpolatedDomain fromDomain toDomain (now - startMs))
    ∧ (animationDuration ≤ now - startMs →
      animationEffectStep s now
        = ({ s with domain := toDomain, animation := Animation.na }, none)) := by
  constructor
  · intro hlt
    have hlt1 : now - startMs < 1000 := hlt
    constructor
    · simp [animationEffectStep, h, hlt1, interpolatedDomain, animationDuration]
    · unfold fireFrame
      split <;> rfl
  · intro hge
    have hge1 : (1000 : ℚ) ≤ now - startMs := hge
    simp [animationEffectStep, h, not_lt.mpr hge1, animationDuration]

/-- Witness for C7 at concrete inputs: a quarter of the way into a tween from
`(0,0)` to `(100,200)` the scheduled frame carries `(25, 50)`; past the
1000 ms duration the state snaps to `(100, 200)` with the animation reset. -/
theorem c7_tween_witness :
    (animationEffectStep ⟨(0, 0), Animation.active 0 (0, 0) (100, 200), false⟩ 250).2
      = some ⟨(25, 50), (100, 200)⟩
    ∧ animationEffectStep ⟨(0, 0), Animation.active 0 (0, 0) (100, 200), false⟩ 1500
      = (⟨(100, 200), Animation.na, false⟩, none) := by
  constructor
  · have h := ((c7_tween_linear_interpolation
      ⟨(0, 0), Animation.active 0 (0, 0) (100, 200), false⟩ 250 0 (0, 0)
      (100, 200) rfl).1 (by norm_num [animationDuration])).1
    rw [h]
    norm_num [interpolatedDomain]
  · exact (c7_tween_linear_interpolation
      ⟨(0, 0), Animation.active 0 (0, 0) (100, 200), false⟩ 1500 0 (0, 0)
      (100, 200) rfl).2 (by norm_num [animationDuration])

/-- C3: a concrete trace showing the stale-frame invariant is not enforced.
Mid-tween (animation A from `(0,0)` to `(100,100)`, 500 ms elapsed) the
effect schedules a frame carrying the interpolation `(50,50)`.  A new
animation B (towards `(200,300)`) then supersedes A via `setDomainAnimated`.
When A's still-pending callback fires, it is applied rather than discarded:
it overwrites the domain with `(50,50)`, a value computed for the superseded
animation.  Moreover a stale frame whose captured `fromDomain` equals its
`toDomain` resets the animation state to none, cancelling B entirely (last
conjunct). -/
theorem c3_stale_frame_not_discarded :
    (animationEffectStep ⟨(0, 0), Animation.active 0 (0, 0) (100, 100), false⟩ 500).2
      = some ⟨(50, 50), (100, 100)⟩
    ∧ setDomainAnimated 500 (200, 300) ⟨(0, 0), Animation.active 0 (0, 0) (100, 100), false⟩
        = ⟨(0, 0), Animation.active 500 (0, 0) (200, 300), false⟩
    ∧ fireFrame ⟨(0, 0), Animation.active 500 (0, 0) (200, 300), false⟩ ⟨(50, 50), (100, 100)⟩
        = ⟨(50, 50), Animation.active 500 (0, 0) (200, 300), false⟩
    ∧ fireFrame ⟨(0, 0), Animation.active 500 (0, 0) (200, 300), false⟩ ⟨(5, 6), (5, 6)⟩
        = ⟨(5, 6), Animation.na, false⟩ := by
  refine ⟨?_, rfl, ?_, ?_⟩
  · norm_num [animationEffectStep, animationDuration]
  · norm_num [fireFrame]
  · norm_num [fireFrame]

/-- C8, counterexample: the same pan — one whose translated domain passes the
strict bounds check, as the second conjunct shows by applying it in a
guard-free state — is silently dropped when an animation is in flight.  `onPan`
is therefore gated by `isDomainChangePossible`, contrary to the claim that pan
is guarded only by the bounds check. -/
theorem c8_pan_guarded_counterexample :
    onPan (0, 10) 200 10 ⟨(2, 3), Animation.active 0 (0, 10) (2, 3), false⟩
      = ⟨(2, 3), Animation.active 0 (0, 10) (2, 3), false⟩
    ∧ onPan (0, 10) 200 10 ⟨(2, 3), Animation.na, false⟩
      = ⟨(21/10, 31/10), Animation.na, false⟩ := by
  refine ⟨by simp [onPan, isDomainChangePossible, isAnimationInProgress],
    by norm_num [onPan, isDomainChangePossible, isAnimationInProgress, timeScalePadding]⟩

/-- C8, amended: whenever an animation is in flight or the pointer hovers an
event mark, all of `zoomIn`/`zoomOut` (via `updateDomain`), `zoomCustom`,
`reset` AND `pan` leave the entire state — domain and animation included —
unchanged, silently; pan is additionally guarded by the bounds check when
change is allowed. -/
theorem c8_guard_silently_noops (s : ViewState) (maxDomain : ℚ × ℚ)
    (now timeAtCursor newZoomWidth width mouseStartX mouseEndX pixelDelta : ℚ)
    (h : s.animation ≠ Animation.na ∨ s.isMouseOverEvent = true) :
    updateDomain maxDomain now timeAtCursor newZoomWidth s = s
    ∧ onZoomInCustom width now mouseStartX mouseEndX s = s
    ∧ onZoomReset maxDomain now s = s
    ∧ onPan maxDomain width pixelDelta s = s := by
  have hg : isDomainChangePossible s = false := by
    rcases h with h | h <;> simp [isDomainChangePossible, isAnimationInProgress, h]
  refine ⟨?_, ?_, ?_, ?_⟩ <;> simp [updateDomain, onZoomInCustom, onZoomReset, onPan, hg]

/-- Witness for C8 at a concrete input: with an animation in flight, a zoom
request is a no-op. -/
theorem c8_guard_witness :
    updateDomain (0, 10) 0 5 2 ⟨(2, 3), Animation.active 0 (0, 10) (2, 3), false⟩
      = ⟨(2, 3), Animation.active 0 (0, 10) (2, 3), false⟩ :=
  (c8_guard_silently_noops ⟨(2, 3), Animation.active 0 (0, 10) (2, 3), false⟩ (0, 10)
    0 5 2 0 0 0 0 (Or.inl (by simp))).1

/-- C9, counterexample: the period tooltip's local x is the constant `0`
inside the pointer-following tooltip frame, so its absolute position equals
the per-frame tracking offset and changes as the pointer moves — it is
pointer-tracking and independent of the event, contrary to the claim that the
period tooltip is anchored relative to the event and does not track the
pointer (the code's own comment, Marks.tsx:260, says period tooltips follow
the mouse). -/
theorem c9_period_tooltip_tracks_pointer :
    tooltipX TooltipType.period 10 = tooltipX TooltipType.period 20
    ∧ absoluteTooltipX TooltipType.period 10 = 10
    ∧ absoluteTooltipX TooltipType.period 20 = 20
    ∧ absoluteTooltipX TooltipType.period 10 ≠ absoluteTooltipX TooltipType.period 20 := by
  refine ⟨rfl, ?_, ?_, ?_⟩ <;> norm_num [absoluteTooltipX, tooltipX]

/-- C9, amended: the period tooltip has box width 180 and local x fixed at 0
in the pointer-following frame (absolute position = the tracking offset, i.e.
it follows the pointer); the instant-event tooltip has box width 100 and
local x = the event's own screen x minus the per-frame tracking offset, so
its absolute position is the event's x, not following the pointer. -/
theorem c9_tooltip_positions_amended (singleEventX xOffset : ℚ) :
    tooltipWidth TooltipType.period = 180
    ∧ tooltipWidth (TooltipType.point singleEventX) = 100
    ∧ tooltipX TooltipType.period xOffset = 0
    ∧ absoluteTooltipX TooltipType.period xOffset = xOffset
    ∧ tooltipX (TooltipType.point singleEventX) xOffset = singleEventX - xOffset
    ∧ absoluteTooltipX (TooltipType.point singleEventX) xOffset = singleEventX := by
  refine ⟨rfl, rfl, rfl, ?_, rfl, ?_⟩ <;> simp [absoluteTooltipX, tooltipX]
